import Mathlib

/-!
Shallow embedding of the knowledge-base synchronization core of the
taurbull scraper: the `ElevenLabsClient` methods of
`src/elevenlabs_api.py` and the `ContentManager` of
`src/content_manager.py`.

Remote HTTP interactions are modelled by an environment record `Env`
holding the response each call site receives; every client method is a
pure function of that environment which additionally returns the list of
API calls it performed, in order, so that claims about which remote
operations happen (delete, upload, agent patch) are statements about the
returned trace.
-/

/-- A document entry as returned by the knowledge-base listing: a JSON
dict whose `id` and `name` keys may each be absent (`d.get("id")`,
`d.get("name")` in the source). -/
structure Doc where
  id : Option String
  name : Option String
deriving DecidableEq

/-- Response received by the HTTP GET inside `get_knowledge_base_docs`:
a network/auth error (`requests.RequestException`), a dict with a
`documents` key, a legacy dict with an `items` key, a bare JSON list, or
any other JSON shape. -/
inductive ListResponse where
  | netError : ListResponse
  | documents (docs : List Doc) : ListResponse
  | items (docs : List Doc) : ListResponse
  | bare (docs : List Doc) : ListResponse
  | other : ListResponse
deriving DecidableEq

/-- `ElevenLabsClient.get_knowledge_base_docs` (elevenlabs_api.py lines
162-195): returns `data["documents"]`, falling back to `data["items"]`
or a bare list, and returns `[]` both on an unrecognized shape and on a
`RequestException` (the exception is caught and logged, not re-raised). -/
def get_knowledge_base_docs : ListResponse → List Doc
  | .netError => []
  | .documents ds => ds
  | .items ds => ds
  | .bare ds => ds
  | .other => []

/-- Response received by the HTTP DELETE inside
`delete_knowledge_base_doc`: either a status code or a transport-level
`RequestException`. -/
inductive DeleteResponse where
  | netError : DeleteResponse
  | status (code : Nat) : DeleteResponse
deriving DecidableEq

/-- `ElevenLabsClient.delete_knowledge_base_doc` (lines 197-235):
404 is treated as success (already deleted), 400 returns `False`
without raising; any other status goes through `raise_for_status`,
which raises for 4xx/5xx codes — the raised `RequestException` is
caught and turned into `False` — and otherwise the method returns
`True`. A transport error also yields `False`. The method never
propagates an exception. -/
def delete_knowledge_base_doc : DeleteResponse → Bool
  | .netError => false
  | .status code =>
    if code = 404 then true
    else if code = 400 then false
    else if 400 ≤ code ∧ code < 600 then false
    else true

/-- Response received by the multipart POST inside
`add_to_knowledge_base`: a transport error (→ `None`), a JSON dict with
optional `document_id` and `id` keys, or a non-dict JSON value. -/
inductive UploadResponse where
  | netError : UploadResponse
  | json (document_id : Option String) (id : Option String) : UploadResponse
  | nonDict : UploadResponse
deriving DecidableEq

/-- The value returned by `add_to_knowledge_base`: the (possibly
normalized) parsed response. -/
inductive UploadResult where
  | dict (document_id : Option String) (id : Option String) : UploadResult
  | nonDict : UploadResult
deriving DecidableEq

/-- `ElevenLabsClient.add_to_knowledge_base` with
`document_type="file"` (lines 68-133): on `RequestException` returns
`None`; otherwise parses the response and, when it is a dict with no
`document_id` key but an `id` key, replaces it by
`{"document_id": result["id"]}`; all other values are returned
unchanged. -/
def add_to_knowledge_base : UploadResponse → Option UploadResult
  | .netError => none
  | .nonDict => some .nonDict
  | .json document_id id =>
    match document_id with
    | some d => some (.dict (some d) id)
    | none =>
      match id with
      | some i => some (.dict (some i) none)
      | none => some (.dict none none)

/-- The `document_id`-or-`id` extraction performed on the upload result
inside `update_knowledge_base` (lines 413-418): only dicts are
inspected; the `document_id` key wins over the `id` key. -/
def extract_doc_id : Option UploadResult → Option String
  | some (.dict document_id id) =>
    match document_id with
    | some d => some d
    | none => id
  | some .nonDict => none
  | none => none

/-- One entry of the `knowledge_base` array inside the agent
configuration: a dict that contains an `id` key, or anything else
(a dict without `id`; the source checks
`isinstance(item, dict) and "id" in item`). -/
inductive KbEntry where
  | withId (id : String) : KbEntry
  | noId : KbEntry
deriving DecidableEq

/-- The `prompt` dict of the agent configuration; the `knowledge_base`
key may be absent (`.get("knowledge_base", [])`). -/
structure Prompt where
  knowledge_base : Option (List KbEntry)
deriving DecidableEq

/-- The `agent` dict of the conversation config; the `prompt` key may be
absent (a missing key raises `KeyError`, which the caller catches). -/
structure AgentBlock where
  prompt : Option Prompt
deriving DecidableEq

/-- The `conversation_config` dict; the `agent` key may be absent. -/
structure ConvConfig where
  agent : Option AgentBlock
deriving DecidableEq

/-- An agent configuration as returned by `get_agent`: the
`conversation_config` key may be absent, and `extra` records whether the
dict carries any other keys (which decides Python truthiness of the
whole dict). -/
structure AgentConfig where
  conversation_config : Option ConvConfig
  extra : Bool
deriving DecidableEq

/-- Python truthiness of the `get_agent` result (`if not agent_config`):
`None` and the empty dict are falsy, a dict with at least one key is
truthy. -/
def agent_truthy : Option AgentConfig → Bool
  | none => false
  | some cfg => cfg.extra || cfg.conversation_config.isSome

/-- One item of the knowledge-base list written back to the agent, as
built in `update_agent_knowledge_base` (lines 298-312):
`{"type": "file", "id": doc_id, "usage_mode": "auto", "name": ...}`. -/
structure KbItem where
  type : String
  id : String
  usage_mode : String
  name : String
deriving DecidableEq

/-- Name resolution in `update_agent_knowledge_base` (lines 291-310):
the first listed document whose `id` equals `doc_id` provides the name;
a missing document, a missing name, or a falsy (empty) name yields the
default `"Document {doc_id}"`. -/
def mkKbItem (docs : List Doc) (docId : String) : KbItem :=
  match (docs.find? fun d => d.id = some docId).bind Doc.name with
  | some n => if n = "" then ⟨"file", docId, "auto", "Document " ++ docId⟩
              else ⟨"file", docId, "auto", n⟩
  | none => ⟨"file", docId, "auto", "Document " ++ docId⟩

/-- One remote API call, recorded in the order the client performs
them. -/
inductive ApiEvent where
  | listDocs : ApiEvent
  | deleteDoc (id : Option String) : ApiEvent
  | upload (name content : String) : ApiEvent
  | getAgent (id : String) : ApiEvent
  | patchAgent (id : String) (items : List KbItem) : ApiEvent
deriving DecidableEq

/-- True exactly on a `deleteDoc` event. -/
def isDelete : ApiEvent → Bool
  | .deleteDoc _ => true
  | _ => false

/-- True exactly on an `upload` event. -/
def isUpload : ApiEvent → Bool
  | .upload _ _ => true
  | _ => false

/-- True exactly on a `patchAgent` event (the only write to the agent
configuration). -/
def isPatch : ApiEvent → Bool
  | .patchAgent _ _ => true
  | _ => false

/-- The environment of one `update_knowledge_base` run: the response
each call site receives. `agentResp` feeds the `get_agent` call made
directly by `update_knowledge_base` (line 425); `agentResp2` and
`listResp2` feed the `get_agent` and `get_knowledge_base_docs` calls
made inside `update_agent_knowledge_base` (lines 277, 286); `patchResp`
tells whether the PATCH succeeds. -/
structure Env where
  listResp : ListResponse
  deleteResp : DeleteResponse
  uploadResp : UploadResponse
  agentResp : Option AgentConfig
  agentResp2 : Option AgentConfig
  listResp2 : ListResponse
  patchResp : Bool
deriving DecidableEq

/-- `ElevenLabsClient.update_agent_knowledge_base` (lines 265-358):
fetches the agent configuration (aborting with `False` when the result
is falsy, before any write), fetches a fresh document listing to resolve
names, rebuilds one `KbItem` per given id, and PATCHes the agent; the
PATCH result is the return value. -/
def update_agent_knowledge_base (env : Env) (agentId : String)
    (kbIds : List String) : Bool × List ApiEvent :=
  if agent_truthy env.agentResp2 = false then
    (false, [.getAgent agentId])
  else
    let docs2 := get_knowledge_base_docs env.listResp2
    let items := kbIds.map (mkKbItem docs2)
    (env.patchResp, [.getAgent agentId, .listDocs, .patchAgent agentId items])

/-- Document lookup in `update_knowledge_base` (lines 380-383): first
document named `{page_name}.txt`, else first document named exactly
`page_name`. -/
def find_existing (docs : List Doc) (page : String) : Option Doc :=
  match docs.find? fun d => d.name = some (page ++ ".txt") with
  | some d => some d
  | none => docs.find? fun d => d.name = some page

/-- The per-item retention test of `update_knowledge_base` (lines
434-440): an existing agent item with id `kbId` is kept only when some
listed document has that id and its name is neither `{page}.txt` nor
`page`; an id absent from the listing is dropped. -/
def keep_entry (docs : List Doc) (page : String) (kbId : String) : Bool :=
  match docs.find? fun d => d.id = some kbId with
  | some d => decide (d.name ≠ some (page ++ ".txt") ∧ d.name ≠ some page)
  | none => false

/-- The id-collection loop of `update_knowledge_base` (lines 434-440):
walks the agent's existing knowledge-base entries in order, keeping the
ids that pass `keep_entry`, skipping entries without an `id` key. -/
def collect_kb_ids (docs : List Doc) (page : String) :
    List KbEntry → List String
  | [] => []
  | .withId kbId :: rest =>
    if keep_entry docs page kbId then kbId :: collect_kb_ids docs page rest
    else collect_kb_ids docs page rest
  | .noId :: rest => collect_kb_ids docs page rest

/-- Extraction of the existing knowledge-base ids in
`update_knowledge_base` (lines 425-443): requires a truthy agent config
containing a `conversation_config` key; a `KeyError` while navigating to
`conversation_config.agent.prompt` is caught and leaves the list
empty. -/
def extract_existing_ids (cfgOpt : Option AgentConfig) (docs : List Doc)
    (page : String) : List String :=
  match cfgOpt with
  | none => []
  | some cfg =>
    match cfg.conversation_config with
    | none => []
    | some cc =>
      match cc.agent with
      | none => []
      | some ab =>
        match ab.prompt with
        | none => []
        | some p => collect_kb_ids docs page (p.knowledge_base.getD [])

/-- The tail of `update_knowledge_base` from the upload on (lines
407-461): uploads, computes `success = result is not None`, and — when
successful and an agent id was supplied — extracts the document id,
fetches the agent config, collects the retained existing ids, appends
the new id and delegates to `update_agent_knowledge_base`; the binding
outcome is only logged, `success` is returned either way. When no
document id can be extracted the agent steps are skipped entirely. -/
def upload_and_bind (env : Env) (page content : String)
    (agentId : Option String) (docs : List Doc) (ev : List ApiEvent) :
    Bool × List ApiEvent :=
  let result := add_to_knowledge_base env.uploadResp
  let ev := ev ++ [.upload page content]
  match result with
  | none => (false, ev)
  | some _ =>
    match agentId with
    | none => (true, ev)
    | some aid =>
      if aid = "" then (true, ev)
      else
        match extract_doc_id result with
        | none => (true, ev)
        | some docId =>
          let ev := ev ++ [.getAgent aid]
          let existing := extract_existing_ids env.agentResp docs page
          let bound := update_agent_knowledge_base env aid (existing ++ [docId])
          (true, ev ++ bound.2)

/-- `ElevenLabsClient.update_knowledge_base` (lines 360-487): lists the
remote documents, looks for an existing document named `{page_name}.txt`
or `page_name`, deletes it when found — aborting with `False` when the
deletion soft-fails and `force_update` is false — then uploads the new
content and optionally binds it to the agent. Returns the upload
success boolean. -/
def update_knowledge_base (env : Env) (page content : String)
    (force : Bool) (agentId : Option String) : Bool × List ApiEvent :=
  let docs := get_knowledge_base_docs env.listResp
  match find_existing docs page with
  | some d =>
    let ev := [ApiEvent.listDocs, ApiEvent.deleteDoc d.id]
    if delete_knowledge_base_doc env.deleteResp = false ∧ force = false then
      (false, ev)
    else upload_and_bind env page content agentId docs ev
  | none => upload_and_bind env page content agentId docs [ApiEvent.listDocs]

/-- Whether a run reaches the upload step: either no existing document
matches, or the deletion did not soft-fail, or `force_update` is set
(the guard of lines 391-405). -/
def reaches_upload (env : Env) (page : String) (force : Bool) : Bool :=
  match find_existing (get_knowledge_base_docs env.listResp) page with
  | none => true
  | some _ => delete_knowledge_base_doc env.deleteResp || force

/-!
## Content manager (`src/content_manager.py`)

The cache directory holds one `{page_name}.txt` and one `{page_name}.md5`
file per page; since the two extensions separate the namespaces, the
cache is modelled as two association lists keyed by page name. The MD5
digest function `get_content_hash` is kept abstract as a parameter
`hash : String → String` of every operation.
-/

/-- The local cache: last-written `{page}.txt` contents and
`{page}.md5` digests, keyed by page name. -/
structure Cache where
  txt : List (String × String)
  md5 : List (String × String)
deriving DecidableEq

/-- Read a file from an association list (`open(path).read()` after an
existence check): the entry for the key, when present. -/
def readFile (fs : List (String × String)) (key : String) : Option String :=
  (fs.find? fun p => p.1 = key).map Prod.snd

/-- Overwrite-or-create a file in an association list
(`open(path, 'w').write(content)`). -/
def writeFile (fs : List (String × String)) (key content : String) :
    List (String × String) :=
  match fs with
  | [] => [(key, content)]
  | (k, c) :: rest =>
    if k = key then (k, content) :: rest
    else (k, c) :: writeFile rest key content

/-- One cache write performed by `save_content`, in execution order. -/
inductive CacheEvent where
  | writeTxt (page content : String) : CacheEvent
  | writeMd5 (page digest : String) : CacheEvent
deriving DecidableEq

/-- `ContentManager.save_content` (content_manager.py lines 41-68):
writes the content file, then computes the hash of the content, then
writes the hash file; returns the new cache state and the write events
in order. -/
def save_content (hash : String → String) (fs : Cache)
    (page content : String) : Cache × List CacheEvent :=
  let fs1 : Cache := { fs with txt := writeFile fs.txt page content }
  let h := hash content
  let fs2 : Cache := { fs1 with md5 := writeFile fs1.md5 page h }
  (fs2, [.writeTxt page content, .writeMd5 page h])

/-- The cache state reached when `save_content` is interrupted after the
content write and before the hash write (between lines 59-60 and 64-65):
only the `{page}.txt` file has been replaced. -/
def save_content_mid (fs : Cache) (page content : String) : Cache :=
  { fs with txt := writeFile fs.txt page content }

/-- Python's `str.strip()` on a character list: drop leading and
trailing whitespace. -/
def stripChars (l : List Char) : List Char :=
  ((l.dropWhile Char.isWhitespace).reverse.dropWhile Char.isWhitespace).reverse

/-- Python's `str.strip()` with no argument: remove surrounding
whitespace. -/
def pyStrip (s : String) : String :=
  ⟨stripChars s.data⟩

/-- `ContentManager.has_content_changed` (lines 70-102): reports
`True` when no `{page}.md5` file exists, and otherwise compares the
hash of the current content with the stored digest, stripped of
surrounding whitespace (`f.read().strip()`); it performs no writes. -/
def has_content_changed (hash : String → String) (fs : Cache)
    (page content : String) : Bool :=
  match readFile fs.md5 page with
  | none => true
  | some prev => hash content ≠ pyStrip prev

/-- The `id` key of a knowledge-base entry, when present. -/
def entryId : KbEntry → Option String
  | .withId i => some i
  | .noId => none

/-!
## Concrete scenarios

Environments used to instantiate the claims on concrete inputs.
-/

/-- Scenario: the initial listing call hits a network error while the
upload succeeds with id `n1`. -/
def envListFail : Env :=
  ⟨.netError, .netError, .json (some "n1") none, none, none, .other, false⟩

/-- Scenario: upload response carrying the id under `document_id`. -/
def envUploadA : Env :=
  ⟨.documents [], .netError, .json (some "A") none, none, none, .other, false⟩

/-- Scenario: upload response carrying the id under the legacy `id`
key. -/
def envUploadB : Env :=
  ⟨.documents [], .netError, .json none (some "B"), none, none, .other, false⟩

/-- Scenario: the listing holds `faq.txt` with id `d1`, deleting it
answers 400 (soft failure), and the upload would succeed. -/
def envSoftFail : Env :=
  ⟨.documents [⟨some "d1", some "faq.txt"⟩], .status 400,
   .json (some "n1") none, none, none, .other, false⟩

/-- An agent configuration binding the single document `d2`. -/
def cfgLegal : AgentConfig :=
  ⟨some ⟨some ⟨some ⟨some [KbEntry.withId "d2"]⟩⟩⟩, false⟩

/-- Scenario for the two `get_agent` call sites disagreeing: the fetch
made by `update_knowledge_base` fails while the fetch inside
`update_agent_knowledge_base` succeeds and returns a configuration that
currently binds `d2`. -/
def envFetchSplit : Env :=
  ⟨.documents [⟨some "d2", some "legal_notice.txt"⟩], .status 200,
   .json (some "n1") none, none, some cfgLegal,
   .documents [⟨some "d2", some "legal_notice.txt"⟩, ⟨some "n1", some "faq.txt"⟩],
   true⟩

/-- Environment whose bind-side agent fetch fails. -/
def envBindFetchFail : Env :=
  ⟨.other, .netError, .netError, none, none, .other, false⟩

/-- The remote listing at the start of the ghost-item scenario: the old
`faq.txt` document `d1` and the unrelated `legal_notice.txt` document
`d2`. -/
def docsGhost : List Doc :=
  [⟨some "d1", some "faq.txt"⟩, ⟨some "d2", some "legal_notice.txt"⟩]

/-- An agent configuration binding `ghost` (an id absent from the
listing), `d2` and the old `d1`. -/
def cfgGhost : AgentConfig :=
  ⟨some ⟨some ⟨some ⟨some [KbEntry.withId "ghost", KbEntry.withId "d2",
     KbEntry.withId "d1"]⟩⟩⟩, false⟩

/-- Ghost-item scenario: delete succeeds, the upload yields `n1`, both
agent fetches succeed, and the fresh listing inside the bind holds the
post-upload documents. -/
def envGhost : Env :=
  ⟨.documents docsGhost, .status 200, .json (some "n1") none,
   some cfgGhost, some cfgGhost,
   .documents [⟨some "d2", some "legal_notice.txt"⟩, ⟨some "n1", some "faq.txt"⟩],
   true⟩

/-- Scenario: the upload answers with a dict carrying neither
`document_id` nor `id`. -/
def envIdless : Env :=
  ⟨.other, .netError, .json none none, none, none, .other, false⟩

/-!
## Helper lemmas
-/

/-- Reading back a key just written returns the written value. -/
theorem readFile_writeFile_same (fs : List (String × String)) (k v : String) :
    readFile (writeFile fs k v) k = some v := by
  induction fs with
  | nil => simp [writeFile, readFile]
  | cons p rest ih =>
    obtain ⟨k1, c1⟩ := p
    by_cases h : k1 = k
    · simp [writeFile, h, readFile]
    · simpa [writeFile, h, readFile] using ih

/-- `update_agent_knowledge_base` performs no delete and no upload. -/
theorem update_agent_no_delete_upload (env : Env) (aid : String)
    (ids : List String) :
    (update_agent_knowledge_base env aid ids).2.any isDelete = false
    ∧ (update_agent_knowledge_base env aid ids).2.any isUpload = false := by
  unfold update_agent_knowledge_base
  by_cases h : agent_truthy env.agentResp2 = false <;>
    simp [h, isDelete, isUpload]

/-- The success flag of `upload_and_bind` is exactly the upload's
success. -/
theorem upload_and_bind_result (env : Env) (page content : String)
    (agentId : Option String) (docs : List Doc) (ev : List ApiEvent) :
    (upload_and_bind env page content agentId docs ev).1
      = (add_to_knowledge_base env.uploadResp).isSome := by
  unfold upload_and_bind
  cases h : add_to_knowledge_base env.uploadResp with
  | none => simp [h]
  | some r =>
    cases agentId with
    | none => simp [h]
    | some aid =>
      by_cases ha : aid = "" <;>
        cases he : extract_doc_id (some r) <;> simp [h, ha, he]

/-- The trace of `upload_and_bind` is the given prefix, the upload
event, then a tail containing neither deletes nor further uploads. -/
theorem upload_and_bind_trace (env : Env) (page content : String)
    (agentId : Option String) (docs : List Doc) (ev : List ApiEvent) :
    ∃ tail, (upload_and_bind env page content agentId docs ev).2
        = (ev ++ [ApiEvent.upload page content]) ++ tail
      ∧ tail.any isDelete = false ∧ tail.any isUpload = false := by
  unfold upload_and_bind
  cases h : add_to_knowledge_base env.uploadResp with
  | none => exact ⟨[], by simp [h]⟩
  | some r =>
    cases agentId with
    | none => exact ⟨[], by simp [h]⟩
    | some aid =>
      by_cases ha : aid = ""
      · exact ⟨[], by simp [h, ha]⟩
      · cases he : extract_doc_id (some r) with
        | none => exact ⟨[], by simp [h, ha, he]⟩
        | some docId =>
          refine ⟨ApiEvent.getAgent aid
              :: (update_agent_knowledge_base env aid
                   (extract_existing_ids env.agentResp docs page ++ [docId])).2, ?_⟩
          have hnb := update_agent_no_delete_upload env aid
            (extract_existing_ids env.agentResp docs page ++ [docId])
          simp [h, ha, he, isDelete, isUpload, hnb.1, hnb.2]

/-!
## Claims
-/

/-- Claim C6: `delete_knowledge_base_doc` returns `true` when the remote
store answers 404 not-found, and returns `false` — without any exception
escaping, which the embedding reflects by returning a plain `Bool` — for
every 4xx client-error status other than 404 (400 "document in use" is
answered directly, the rest through the caught `raise_for_status`
exception). -/
theorem delete_idempotent_and_soft (code : Nat) (h4 : 400 ≤ code)
    (h5 : code < 500) (hne : code ≠ 404) :
    delete_knowledge_base_doc (.status 404) = true
    ∧ delete_knowledge_base_doc (.status code) = false := by
  refine ⟨rfl, ?_⟩
  unfold delete_knowledge_base_doc
  have h6 : code < 600 := lt_trans h5 (by norm_num)
  by_cases hc : code = 400 <;> simp [hne, hc, h4, h6]

/-- Witness for C6 at the concrete in-use status 400. -/
theorem delete_idempotent_and_soft_witness :
    delete_knowledge_base_doc (.status 404) = true
    ∧ delete_knowledge_base_doc (.status 400) = false :=
  delete_idempotent_and_soft 400 (by decide) (by decide) (by decide)

/-- Claim C7: `save_content` emits its cache writes in the order
content-then-hash, with the hash computed from the content being
written, and the intermediate state reached between the two writes still
reports "changed" whenever the starting state did (the `.md5` file is
untouched by the first write). -/
theorem save_content_order (hash : String → String) (fs : Cache)
    (page content : String) :
    (save_content hash fs page content).2
      = [CacheEvent.writeTxt page content,
         CacheEvent.writeMd5 page (hash content)]
    ∧ (has_content_changed hash fs page content = true →
       has_content_changed hash (save_content_mid fs page content)
         page content = true) := by
  refine ⟨rfl, fun h => ?_⟩
  exact h

/-- Witness for C7: a fresh cache reports "changed" both before and at
the interrupted intermediate state. -/
theorem save_content_order_witness :
    has_content_changed (fun _ => "aa")
      (save_content_mid ⟨[], []⟩ "faq" "x") "faq" "x" = true :=
  (save_content_order (fun _ => "aa") ⟨[], []⟩ "faq" "x").2 (by decide)

/-- Claim C8: `has_content_changed` returns `true` exactly when no
`.md5` entry exists for the page or the fingerprint of the content
differs from the stored digest; being a pure function of the cache, it
modifies no state. -/
theorem has_content_changed_iff (hash : String → String) (fs : Cache)
    (page content : String) :
    has_content_changed hash fs page content = true ↔
      (readFile fs.md5 page = none
       ∨ ∃ s, readFile fs.md5 page = some s ∧ hash content ≠ pyStrip s) := by
  unfold has_content_changed
  cases h : readFile fs.md5 page with
  | none => simp [h]
  | some s => simp [h]

/-- Claim C9: persisting content and immediately re-checking the same
content reports "unchanged"; the hypothesis records that MD5 hex digests
carry no surrounding whitespace, so the `.strip()` applied on read is
the identity on them. -/
theorem persist_then_unchanged (hash : String → String) (fs : Cache)
    (page content : String)
    (htrim : pyStrip (hash content) = hash content) :
    has_content_changed hash (save_content hash fs page content).1
      page content = false := by
  unfold save_content has_content_changed
  simp [readFile_writeFile_same, htrim]

/-- Witness for C9 on a concrete cache, page and digest function. -/
theorem persist_then_unchanged_witness :
    has_content_changed (fun _ => "aa")
      (save_content (fun _ => "aa") ⟨[], []⟩ "faq" "x").1 "faq" "x" = false :=
  persist_then_unchanged (fun _ => "aa") ⟨[], []⟩ "faq" "x" (by decide)

/-- Claim C1 counterexample: with the initial listing failing on a
network error and a working upload, the sync returns `true` and its
trace contains an upload — refuting "fails immediately and reports
failure without attempting any delete or upload". -/
theorem list_failure_counterexample :
    update_knowledge_base envListFail "faq" "body" false none
      = (true, [ApiEvent.listDocs, ApiEvent.upload "faq" "body"]) := by
  decide

/-- Claim C1 (amended): when the initial listing call fails, the error
is swallowed — the listing is treated as empty, no delete is attempted,
and the sync proceeds to the upload, succeeding exactly when the upload
succeeds. -/
theorem list_failure_swallowed (env : Env) (page content : String)
    (force : Bool) (agentId : Option String)
    (h : env.listResp = .netError) :
    (update_knowledge_base env page content force agentId).1
      = (add_to_knowledge_base env.uploadResp).isSome
    ∧ (update_knowledge_base env page content force agentId).2.any isDelete
        = false
    ∧ (update_knowledge_base env page content force agentId).2.any isUpload
        = true := by
  have hdocs : get_knowledge_base_docs env.listResp = [] := by
    rw [h]; rfl
  have hfind : find_existing (get_knowledge_base_docs env.listResp) page
      = none := by
    rw [hdocs]; rfl
  simp only [update_knowledge_base, hfind]
  obtain ⟨tail, htr, hdel, hup⟩ :=
    upload_and_bind_trace env page content agentId
      (get_knowledge_base_docs env.listResp) [ApiEvent.listDocs]
  refine ⟨upload_and_bind_result .., ?_, ?_⟩ <;>
    simp [htr, hdel, hup, isDelete, isUpload]

/-- Witness for C1 (amended) at the concrete failing-listing
environment. -/
theorem list_failure_swallowed_witness :
    (update_knowledge_base envListFail "faq" "body" false none).1
      = (add_to_knowledge_base envListFail.uploadResp).isSome
    ∧ (update_knowledge_base envListFail "faq" "body" false none).2.any
        isDelete = false
    ∧ (update_knowledge_base envListFail "faq" "body" false none).2.any
        isUpload = true :=
  list_failure_swallowed envListFail "faq" "body" false none rfl

/-- Claim C2 counterexample: two successful syncs whose upload responses
carry different new-document identifiers (under `document_id`
resp. the legacy `id` key) produce identical sync results — the bare
boolean `true` — so the result of a successful sync does not carry the
new document's identifier. -/
theorem sync_result_carries_no_id :
    (update_knowledge_base envUploadA "faq" "new text" false none).1 = true
    ∧ (update_knowledge_base envUploadB "faq" "new text" false none).1 = true
    ∧ (update_knowledge_base envUploadA "faq" "new text" false none).1
        = (update_knowledge_base envUploadB "faq" "new text" false none).1
    ∧ extract_doc_id (add_to_knowledge_base envUploadA.uploadResp) = some "A"
    ∧ extract_doc_id (add_to_knowledge_base envUploadB.uploadResp) = some "B" := by
  decide

/-- Claim C2 (amended): the sync returns only a success boolean; the
document identifier it uses internally (for agent binding) is obtained
from the upload response equivalently through `document_id` or `id`,
preferring `document_id` when both keys are present. -/
theorem doc_id_extraction_preference (d i : Option String) :
    extract_doc_id (add_to_knowledge_base (.json d i))
      = (match d with | some v => some v | none => i) := by
  cases d <;> cases i <;> rfl

/-- Claim C3: when the existing document's deletion soft-fails, a
non-forced sync returns `false` with no upload attempted, while a
forced sync still uploads and succeeds exactly when the upload does. -/
theorem delete_soft_fail_policy (env : Env) (page content : String)
    (agentId : Option String)
    (hfind : (find_existing (get_knowledge_base_docs env.listResp) page).isSome
        = true)
    (hdel : delete_knowledge_base_doc env.deleteResp = false) :
    ((update_knowledge_base env page content false agentId).1 = false
     ∧ (update_knowledge_base env page content false agentId).2.any isUpload
         = false)
    ∧ ((update_knowledge_base env page content true agentId).2.any isUpload
         = true
     ∧ (update_knowledge_base env page content true agentId).1
         = (add_to_knowledge_base env.uploadResp).isSome) := by
  obtain ⟨d, hd⟩ := Option.isSome_iff_exists.mp hfind
  constructor
  · simp only [update_knowledge_base, hd]
    simp [hdel, isUpload]
  · simp only [update_knowledge_base, hd]
    simp only [Bool.true_eq_false, and_false, if_false]
    obtain ⟨tail, htr, _, hup⟩ :=
      upload_and_bind_trace env page content agentId
        (get_knowledge_base_docs env.listResp)
        [ApiEvent.listDocs, ApiEvent.deleteDoc d.id]
    refine ⟨?_, upload_and_bind_result ..⟩
    simp [htr, hup, isUpload]

/-- Witness for C3 at the concrete soft-failing-delete environment. -/
theorem delete_soft_fail_policy_witness :
    ((update_knowledge_base envSoftFail "faq" "body" false none).1 = false
     ∧ (update_knowledge_base envSoftFail "faq" "body" false none).2.any
         isUpload = false)
    ∧ ((update_knowledge_base envSoftFail "faq" "body" true none).2.any
         isUpload = true
     ∧ (update_knowledge_base envSoftFail "faq" "body" true none).1
         = (add_to_knowledge_base envSoftFail.uploadResp).isSome) :=
  delete_soft_fail_policy envSoftFail "faq" "body" none (by decide) (by decide)

/-- Claim C4 counterexample: the code fetches the agent configuration at
two separate call sites. In `envFetchSplit` the fetch made by
`update_knowledge_base` fails (`agentResp = none`) while the fetch
inside `update_agent_knowledge_base` succeeds; the bind is not aborted —
a PATCH is written carrying only the new document, so the existing `d2`
binding of the fetched configuration is lost despite a failed fetch. -/
theorem agent_fetch_failure_still_writes :
    envFetchSplit.agentResp = none
    ∧ (update_knowledge_base envFetchSplit "faq" "body" false
        (some "agent")).2
      = [ApiEvent.listDocs, ApiEvent.upload "faq" "body",
         ApiEvent.getAgent "agent", ApiEvent.getAgent "agent",
         ApiEvent.listDocs,
         ApiEvent.patchAgent "agent" [⟨"file", "n1", "auto", "faq.txt"⟩]] := by
  decide

/-- Claim C4 (amended): only the fetch performed inside
`update_agent_knowledge_base` itself is fatal — when it fails the bind
returns `false` and no agent-configuration write appears in the trace;
a failure of the preliminary fetch in `update_knowledge_base` merely
empties the retained-ids list. -/
theorem bind_fetch_failure_aborts (env : Env) (aid : String)
    (ids : List String) (h : env.agentResp2 = none) :
    (update_agent_knowledge_base env aid ids).1 = false
    ∧ (update_agent_knowledge_base env aid ids).2.any isPatch = false := by
  unfold update_agent_knowledge_base
  simp [h, agent_truthy, isPatch]

/-- Witness for C4 (amended) at a concrete failing bind-side fetch. -/
theorem bind_fetch_failure_aborts_witness :
    (update_agent_knowledge_base envBindFetchFail "agent" ["d2"]).1 = false
    ∧ (update_agent_knowledge_base envBindFetchFail "agent" ["d2"]).2.any
        isPatch = false :=
  bind_fetch_failure_aborts envBindFetchFail "agent" ["d2"] rfl

/-- Claim C5 counterexample: the agent's collection holds an item with
id `ghost` whose id is absent from the remote listing, so its resolved
document name matches neither `faq.txt` nor `faq`; the claim demands it
be retained, yet the run keeps only `d2` and the written collection
holds two items with `ghost` gone. -/
theorem ghost_item_dropped :
    (docsGhost.find? fun d => d.id = some "ghost") = none
    ∧ collect_kb_ids docsGhost "faq"
        [KbEntry.withId "ghost", KbEntry.withId "d2", KbEntry.withId "d1"]
      = ["d2"]
    ∧ (update_knowledge_base envGhost "faq" "new text" false
        (some "agent")).2
      = [ApiEvent.listDocs, ApiEvent.deleteDoc (some "d1"),
         ApiEvent.upload "faq" "new text", ApiEvent.getAgent "agent",
         ApiEvent.getAgent "agent", ApiEvent.listDocs,
         ApiEvent.patchAgent "agent"
           [⟨"file", "d2", "auto", "legal_notice.txt"⟩,
            ⟨"file", "n1", "auto", "faq.txt"⟩]] := by
  decide

/-- Claim C5 (amended): an existing item is retained exactly when its
entry carries an `id` that resolves, in the listing fetched at the
start of the sync, to a document named neither `{unitName}.txt` nor
`unitName`; retained ids keep their original relative order, the new
document's id is appended, and the written collection is exactly these
ids rebuilt as `type=file, usage_mode=auto` items with freshly resolved
names. -/
theorem retained_ids_characterization (docs : List Doc) (page : String)
    (entries : List KbEntry) (env : Env) (aid docId : String)
    (h : agent_truthy env.agentResp2 = true) :
    collect_kb_ids docs page entries
      = (entries.filterMap entryId).filter (keep_entry docs page)
    ∧ (update_agent_knowledge_base env aid
        (collect_kb_ids docs page entries ++ [docId])).2
      = [ApiEvent.getAgent aid, ApiEvent.listDocs,
         ApiEvent.patchAgent aid
           ((collect_kb_ids docs page entries ++ [docId]).map
             (mkKbItem (get_knowledge_base_docs env.listResp2)))] := by
  constructor
  · induction entries with
    | nil => rfl
    | cons e rest ih =>
      cases e with
      | withId i =>
        by_cases hk : keep_entry docs page i = true <;>
          simp [collect_kb_ids, entryId, hk, ih]
      | noId => simp [collect_kb_ids, entryId, ih]
  · unfold update_agent_knowledge_base
    simp [h]

/-- Witness for C5 (amended) on the spec's two-item scenario: the
superseded `faq` item is dropped, `legal_notice` is retained, and the
written collection is `legal_notice` plus the new `faq` document. -/
theorem retained_ids_characterization_witness :
    collect_kb_ids docsGhost "faq" [KbEntry.withId "d2", KbEntry.withId "d1"]
      = ([KbEntry.withId "d2", KbEntry.withId "d1"].filterMap
          entryId).filter (keep_entry docsGhost "faq")
    ∧ (update_agent_knowledge_base envGhost "agent"
        (collect_kb_ids docsGhost "faq"
          [KbEntry.withId "d2", KbEntry.withId "d1"] ++ ["n1"])).2
      = [ApiEvent.getAgent "agent", ApiEvent.listDocs,
         ApiEvent.patchAgent "agent"
           ((collect_kb_ids docsGhost "faq"
               [KbEntry.withId "d2", KbEntry.withId "d1"] ++ ["n1"]).map
             (mkKbItem (get_knowledge_base_docs envGhost.listResp2)))] :=
  retained_ids_characterization docsGhost "faq"
    [KbEntry.withId "d2", KbEntry.withId "d1"] envGhost "agent" "n1"
    (by decide)

/-- Claim C10: when the upload answers a dict carrying neither
`document_id` nor `id` and the run reaches the upload step, the sync
returns `true` while the agent-binding write never happens — the caller
cannot tell this id-less half-success from a fully bound publish. -/
theorem idless_upload_half_success (env : Env) (page content : String)
    (force : Bool) (aid : String)
    (hup : env.uploadResp = .json none none)
    (hreach : reaches_upload env page force = true) :
    (update_knowledge_base env page content force (some aid)).1 = true
    ∧ (update_knowledge_base env page content force (some aid)).2.any isPatch
        = false := by
  have hadd : add_to_knowledge_base env.uploadResp
      = some (.dict none none) := by
    rw [hup]; rfl
  have hux : ∀ docs ev, upload_and_bind env page content (some aid) docs ev
      = (true, ev ++ [ApiEvent.upload page content]) := by
    intro docs ev
    by_cases ha : aid = "" <;>
      simp [upload_and_bind, hadd, ha, extract_doc_id]
  unfold reaches_upload at hreach
  simp only [update_knowledge_base]
  cases hf : find_existing (get_knowledge_base_docs env.listResp) page with
  | none => simp [hf, hux, isPatch]
  | some d =>
    rw [hf] at hreach
    have hcond : ¬(delete_knowledge_base_doc env.deleteResp = false
        ∧ force = false) := by
      rintro ⟨h1, h2⟩
      rw [h1, h2] at hreach
      simp at hreach
    simp [hf, hcond, hux, isPatch]

/-- Witness for C10 at the concrete id-less upload environment. -/
theorem idless_upload_half_success_witness :
    (update_knowledge_base envIdless "faq" "body" false (some "agent")).1
      = true
    ∧ (update_knowledge_base envIdless "faq" "body" false
        (some "agent")).2.any isPatch = false :=
  idless_upload_half_success envIdless "faq" "body" false "agent" rfl rfl
